import Mathlib

/-!
Verification of the ClearTok repost-removal extension's workflow and
state-synchronization engine, shallowly embedded from the JavaScript
source:

* `src/unnamed/part_005` — `StateStore`, the content-script state proxy
  (local cache plus forwarding to the background `StateManager`);
* `src/modules/workflow.js` — `WorkflowManager` (start guard, pausable
  sleep, pause-check loop, the video-processing queue, quota cap);
* `src/background.js` — `StateManager` (deep merge, broadcast, tab-closed
  recovery) and the `chrome.tabs.onRemoved` listener;
* `src/modules/ui.js` — `UIManager.waitForElement` and
  `UIManager.autoScrollToBottom`;
* `src/unnamed/part_004` — the `PAUSE_REMOVAL` / `RESUME_REMOVAL`
  handlers.

Machine integers are modelled as `Nat` (counters, tab ids, millisecond
times); JavaScript `null` becomes `Option`; asynchronous effects become
explicit state passing, with inter-context messages and broadcasts
returned as lists.
-/

/-! ## Typed state model (part_005 lines 20-40, background.js lines 19-39)

Both `StateStore` and `StateManager` declare the same state shape:
`process` flags, `stats` counters, `currentVideo` metadata and a
`removedList`. -/

/-- Slice `process` of the state: running/paused flags, the target tab
handle (`tabId`, `null` when no tab is owned) and the start timestamp. -/
structure ProcState where
  isRunning : Bool
  isPaused : Bool
  tabId : Option Nat
  startTime : Option Nat
  deriving DecidableEq, Repr

/-- Slice `stats` of the state: the four counters. -/
structure Stats where
  totalReposts : Nat
  processedVideos : Nat
  removedVideos : Nat
  skippedVideos : Nat
  deriving DecidableEq, Repr

/-- Slice `currentVideo` of the state. -/
structure CurrentVideo where
  index : Nat
  title : String
  author : String
  url : String
  deriving DecidableEq, Repr

/-- One entry of `removedList`: video metadata plus the removal time. -/
structure RemovedEntry where
  title : String
  author : String
  url : String
  removedAt : Nat
  deriving DecidableEq, Repr

/-- The full ProcessState shape shared by `StateStore.defaultState`
(part_005 lines 20-40) and `StateManager.state` (background.js 19-39). -/
structure CState where
  process : ProcState
  stats : Stats
  currentVideo : CurrentVideo
  removedList : List RemovedEntry
  deriving DecidableEq, Repr

/-- The `defaultState` value of part_005 lines 20-40: everything off,
zeroed and empty. -/
def defaultCState : CState :=
  { process := { isRunning := false, isPaused := false, tabId := none, startTime := none }
    stats := { totalReposts := 0, processedVideos := 0, removedVideos := 0, skippedVideos := 0 }
    currentVideo := { index := 0, title := "", author := "", url := "" }
    removedList := [] }

/-- The two copies of ProcessState that exist at run time: the canonical
copy owned by the background `StateManager` and the content script's
locally cached replica held by `StateStore` (`this.state`). -/
structure Sys where
  canonical : CState
  cache : CState
  deriving DecidableEq, Repr

/-- `StateStore.getState(forceRefresh = false)` (part_005 lines 84-98),
as seen from the content script (`isContentScript()` true there): when
`forceRefresh` is true it performs a `GET_STATE` round trip to the
background and overwrites the cache with the canonical state; otherwise
it returns the cached replica untouched.  The returned triple is
(state handed to the caller, resulting system, whether a round trip to
the background `StateManager` happened). -/
def StateStore.getState (sys : Sys) (forceRefresh : Bool) : CState × Sys × Bool :=
  if forceRefresh then (sys.canonical, { sys with cache := sys.canonical }, true)
  else (sys.cache, sys, false)

/-- Effect of the `startProcess()` update object (part_005 lines 137-158,
called without `tabId`) on one copy of the state: `process.isRunning`
true, `process.isPaused` false, `process.startTime` now, all stats
zeroed, `removedList` emptied; `process.tabId` is not part of the update
object and therefore survives the deep merge. -/
def applyStartProcess (now : Nat) (s : CState) : CState :=
  { s with
    process := { s.process with isRunning := true, isPaused := false, startTime := some now }
    stats := { totalReposts := 0, processedVideos := 0, removedVideos := 0, skippedVideos := 0 }
    removedList := [] }

/-- `StateStore.startProcess()` (part_005 lines 137-158): the update is
applied optimistically to the local cache and forwarded as
`UPDATE_STATE` to the background, whose `deepMerge` applies the same
delta to the canonical state. -/
def StateStore.startProcess (now : Nat) (sys : Sys) : Sys :=
  { canonical := applyStartProcess now sys.canonical
    cache := applyStartProcess now sys.cache }

/-- Broadcast messages the workflow emits through `MessageBus.broadcast`
(identified by their `statusKey` / payload fields). -/
inductive Broadcast
  | statusUpdate (statusKey : String)
  | updateProgress (current total : Nat)
  | videoRemoved (index : Nat)
  | videoSkipped (index : Nat)
  | noRepostsFound
  | complete (removedCount totalCount : Nat)
  | errorMsg (message : String)
  deriving DecidableEq, Repr

/-- Prefix of `WorkflowManager.start()` (workflow.js lines 50-62): it
reads `this.stateStore.getState()` — with no argument, so
`forceRefresh` takes its default `false` — and returns at once when the
read state reports `process.isRunning`; otherwise it runs
`stateStore.startProcess()` and broadcasts the `statusStarting`
STATUS_UPDATE.  The later DOM-driven phases (lines 69-92) are beyond the
guard and are modelled separately by the queue embedding below. -/
def WorkflowManager.startStep (now : Nat) (sys : Sys) : Sys × List Broadcast :=
  let read := StateStore.getState sys false
  if read.1.process.isRunning then (sys, [])
  else (StateStore.startProcess now read.2.1, [Broadcast.statusUpdate "statusStarting"])

/-- The single state read performed by each iteration of
`WorkflowManager.checkPauseState` (workflow.js line 460):
`await this.stateStore.getState()` with no argument. -/
def WorkflowManager.pauseCheckRead (sys : Sys) : CState × Sys × Bool :=
  StateStore.getState sys false

/-- The stop-check read inside `WorkflowManager.pausableSleep`
(workflow.js line 32): `await this.stateStore.getState()` with no
argument. -/
def WorkflowManager.sleepStopRead (sys : Sys) : CState × Sys × Bool :=
  StateStore.getState sys false

/-- `WorkflowManager.checkPauseState()` (workflow.js lines 458-468) over
a trace `sysAt` giving the system state at each 500ms poll: the loop
exits (returning the poll index) as soon as the state read by
`getState()` reports not-paused or not-running; `fuel` bounds the polls
we examine (`none` means the wait was still blocked after `fuel`
polls). -/
def WorkflowManager.checkPauseState (sysAt : Nat → Sys) (fuel k : Nat) : Option Nat :=
  match fuel with
  | 0 => none
  | f + 1 =>
    let st := (WorkflowManager.pauseCheckRead (sysAt k)).1
    if !st.process.isPaused || !st.process.isRunning then some k
    else WorkflowManager.checkPauseState sysAt f (k + 1)

/-- Outcome of `pausableSleep`: ran the full duration, or returned early
because the read state reported not-running. -/
inductive SleepOutcome
  | finished (elapsed : Nat)
  | stopped (elapsed : Nat)
  deriving DecidableEq, Repr

/-- `WorkflowManager.pausableSleep(ms)` (workflow.js lines 23-40) over a
trace of system states indexed by a poll counter `k`: while
`elapsed < ms`, each iteration first blocks via `checkPauseState`
(modelled as polls that consume `k` without advancing `elapsed` while
the read state is paused-and-running), then reads `getState()` again
and returns early if `process.isRunning` is false, else sleeps one
100ms step.  Every read goes through `getState()` with the default
`forceRefresh = false`.  `fuel` bounds the number of polls. -/
def WorkflowManager.pausableSleep (sysAt : Nat → Sys) (fuel ms elapsed k : Nat) :
    Option SleepOutcome :=
  match fuel with
  | 0 => none
  | f + 1 =>
    if elapsed < ms then
      let st := (WorkflowManager.sleepStopRead (sysAt k)).1
      if st.process.isPaused && st.process.isRunning then
        WorkflowManager.pausableSleep sysAt f ms elapsed (k + 1)
      else if !st.process.isRunning then some (SleepOutcome.stopped elapsed)
      else WorkflowManager.pausableSleep sysAt f ms (elapsed + 100) (k + 1)
    else some (SleepOutcome.finished elapsed)

/-! ## The processing queue (workflow.js lines 248-378) -/

/-- `WorkflowManager.getQuotaInfo()` (workflow.js lines 508-520): the
stored quota snapshot is used when it carries a numeric `remaining`
(modelled as `some r`); otherwise the fallback snapshot with
`remaining = Number.MAX_SAFE_INTEGER` stands in for "unlimited". -/
def getQuotaRemaining (stored : Option Nat) : Nat :=
  match stored with
  | some r => r
  | none => 9007199254740991

/-- The removal cap of `step_processVideoQueue` (workflow.js line 255):
`quotaInfo.remaining || 100` — JavaScript `||` replaces a falsy `0` by
the default `100`. -/
def maxRemovalOf (remaining : Nat) : Nat :=
  if remaining = 0 then 100 else remaining

/-- Environment of one queue run, indexing the external observations the
loop makes: `runningAt k` is the `process.isRunning` flag the cached
state reports at iteration `k`; `scrollResult k` is what
`autoScrollToBottom` returns when iteration `k` tries to load one more
batch; `repostAt i` tells whether item `i` (1-based cursor value) has
its repost button present and `isVideoReposted` true; `nextEnabledAt i`
tells whether the next-button is present and enabled after item `i`. -/
structure QueueEnv where
  runningAt : Nat → Bool
  scrollResult : Nat → Nat
  repostAt : Nat → Bool
  nextEnabledAt : Nat → Bool

/-- Events recorded while the queue loop runs: the broadcasts it emits
plus the `stateStore.setTotal` writes. -/
inductive QEvent
  | statusProcessing (current total : Nat)
  | progress (current total : Nat)
  | removed (index : Nat)
  | skipped (index : Nat)
  | setTotal (n : Nat)
  | limitReached
  deriving DecidableEq, Repr

/-- How the queue loop exited: canonical-state stop, the quota cap
("Daily limit reached"), or the next-button missing/disabled (natural
end of list). -/
inductive QExit
  | stopped
  | limitReached
  | endOfList
  deriving DecidableEq, Repr

/-- Result of a queue run: exit path, final local `removedCount` and
cursor, the store's `stats.totalReposts` after the run, and the events
in emission order. -/
structure QueueResult where
  exitPath : QExit
  removedCount : Nat
  currentIndex : Nat
  storeTotal : Nat
  events : List QEvent
  deriving DecidableEq, Repr

/-- `WorkflowManager.step_processVideoQueue()` (workflow.js lines
248-368), one iteration per fuel unit.  Per iteration, in source order:
the `getState()` stop check (line 261); the batch-load attempt when the
cursor has caught up with the snapshot total (lines 264-284, note that
the later `displayTotal` comparison still uses the stale snapshot read
at line 260); the quota-cap check (lines 287-294); cursor advance and
`displayTotal` update (lines 296-302); status and progress broadcasts;
the repost test and `VIDEO_REMOVED` / `VIDEO_SKIPPED` branch (lines
320-345); the next-button step (lines 348-367).  Pause blocking
(`checkPauseState`, line 258) suspends without changing any of the
modelled data and is elided from the iteration.  `fuel` exhaustion
returns `none`. -/
def processVideoQueue (env : QueueEnv) (maxRemoval : Nat) :
    Nat → Nat → Nat → Nat → Nat → List QEvent → Option QueueResult
  | 0, _, _, _, _, _ => none
  | fuel + 1, currentIndex, removedCount, storeTotal, k, events =>
    if !env.runningAt k then
      some ⟨QExit.stopped, removedCount, currentIndex, storeTotal, events⟩
    else
      let snap := storeTotal
      let batched :=
        if snap ≤ currentIndex then
          let newly := env.scrollResult k
          if snap < newly then (newly, events ++ [QEvent.setTotal newly])
          else (storeTotal, events)
        else (storeTotal, events)
      if maxRemoval ≤ removedCount then
        some ⟨QExit.limitReached, removedCount, currentIndex, batched.1,
          batched.2 ++ [QEvent.limitReached]⟩
      else
        let idx := currentIndex + 1
        let displayTotal := max idx snap
        let totalled :=
          if snap < displayTotal then (displayTotal, batched.2 ++ [QEvent.setTotal displayTotal])
          else (batched.1, batched.2)
        let events3 := totalled.2 ++
          [QEvent.statusProcessing idx displayTotal, QEvent.progress idx displayTotal]
        if env.repostAt idx then
          let events4 := events3 ++ [QEvent.removed idx]
          if env.nextEnabledAt idx then
            processVideoQueue env maxRemoval fuel idx (removedCount + 1) totalled.1 (k + 1) events4
          else some ⟨QExit.endOfList, removedCount + 1, idx, totalled.1, events4⟩
        else
          let events4 := events3 ++ [QEvent.skipped idx]
          if env.nextEnabledAt idx then
            processVideoQueue env maxRemoval fuel idx removedCount totalled.1 (k + 1) events4
          else some ⟨QExit.endOfList, removedCount, idx, totalled.1, events4⟩

/-- Count of `VIDEO_REMOVED` broadcasts in a queue event trace. -/
def countRemovedEvents (events : List QEvent) : Nat :=
  (events.filter fun e =>
    match e with
    | QEvent.removed _ => true
    | _ => false).length

/-- Environment of the C3 scenario: canonical state keeps running, ten
items are loaded, every item tests as a repost, the next button stays
enabled. -/
def c3Env : QueueEnv :=
  { runningAt := fun _ => true
    scrollResult := fun _ => 10
    repostAt := fun _ => true
    nextEnabledAt := fun _ => true }

/-! ## Start / pause / resume / stop commands on canonical state -/

/-- The four external commands of the control surface. -/
inductive Command
  | start
  | pause
  | resume
  | stop
  deriving DecidableEq, Repr

/-- Effect of one command on the canonical `process` slice, as produced
by the handler chains: `start` is `StateStore.startProcess` (part_005
lines 137-158) merged by the background; `pause` / `resume` are the
`PAUSE_REMOVAL` / `RESUME_REMOVAL` handlers (part_004 lines 274-296)
calling `setPaused(true)` / `setPaused(false)` (part_005 lines 178-180)
— note `setPaused` writes `process.isPaused` unconditionally; `stop` is
`StateStore.stopProcess` (part_005 lines 164-173). -/
def applyCommand (now : Nat) (p : ProcState) : Command → ProcState
  | Command.start => { p with isRunning := true, isPaused := false, startTime := some now }
  | Command.pause => { p with isPaused := true }
  | Command.resume => { p with isPaused := false }
  | Command.stop => { isRunning := false, isPaused := false, tabId := none, startTime := none }

/-- Canonical `process` state after a sequence of commands. -/
def runCommands (now : Nat) (p : ProcState) (cs : List Command) : ProcState :=
  cs.foldl (applyCommand now) p

/-- Checks that along the run every `pause` command is issued while the
state it is applied to reports `isRunning = true`. -/
def pauseOnlyWhileRunning (now : Nat) (p : ProcState) : List Command → Bool
  | [] => true
  | c :: cs =>
    (decide (c ≠ Command.pause) || p.isRunning) &&
      pauseOnlyWhileRunning now (applyCommand now p c) cs

/-! ## Tab-closed recovery (background.js lines 135-156 and 293-311) -/

/-- What `StateManager.saveToStorage` persists (background.js lines
64-76): only `stats` and `removedList`. -/
structure PersistedSnapshot where
  stats : Stats
  removedList : List RemovedEntry
  deriving DecidableEq, Repr

/-- Messages the background emits: the `STATE_CHANGED` rebroadcast of
`broadcastState` and the `TAB_CLOSED` notification to the popup. -/
inductive BgEvent
  | stateChanged (s : CState)
  | tabClosed (tabId : Nat) (stats : Stats) (hasRemovedVideos : Bool)
  deriving DecidableEq, Repr

/-- `StateManager.resetProcessKeepStats()` (background.js lines
135-156): `updateState` merges a patch that clears running/paused and
the tab handle, keeps `startTime` (the patch carries the current
value), resets `currentVideo`, and deliberately omits `stats` and
`removedList`; the merge rebroadcasts the full new state, and the
method then force-persists `stats` and `removedList` immediately. -/
def StateManager.resetProcessKeepStats (s : CState) : CState × List BgEvent × PersistedSnapshot :=
  let s2 : CState :=
    { s with
      process :=
        { isRunning := false, isPaused := false, tabId := none
          startTime := s.process.startTime }
      currentVideo := { index := 0, title := "", author := "", url := "" } }
  (s2, [BgEvent.stateChanged s2], { stats := s2.stats, removedList := s2.removedList })

/-- The `chrome.tabs.onRemoved` listener (background.js lines 293-311):
when the closed tab is the processing tab it runs
`resetProcessKeepStats` and then sends exactly one `TAB_CLOSED` message
carrying the (preserved) stats and a `hasRemovedVideos` flag; otherwise
nothing happens.  Returns (new canonical state, what was persisted if
anything, the emitted messages in order). -/
def bgOnTabRemoved (removedTabId : Nat) (s : CState) :
    CState × Option PersistedSnapshot × List BgEvent :=
  if s.process.tabId = some removedTabId then
    let r := StateManager.resetProcessKeepStats s
    (r.1, some r.2.2,
      r.2.1 ++ [BgEvent.tabClosed removedTabId r.1.stats (decide (0 < r.1.stats.removedVideos))])
  else (s, none, [])

/-- Projection of the `TAB_CLOSED` messages in a background event list
to their (tab id, stats) payloads. -/
def tabClosedPayloads (events : List BgEvent) : List (Nat × Stats) :=
  events.filterMap fun e =>
    match e with
    | BgEvent.tabClosed t st _ => some (t, st)
    | _ => none

/-! ## DOM waits and auto-scroll (src/modules/ui.js) -/

/-- Payload of the `UI_WAIT_TIMEOUT` diagnostic that
`UIManager.waitForElement` fires through the message layer on timeout
(ui.js lines 86-94): the selector key, the timeout and the page URL. -/
structure Diag where
  selectorKey : String
  timeout : Nat
  url : String
  deriving DecidableEq, Repr

/-- The `check` loop of `UIManager.waitForElement` (ui.js lines 75-103)
with the clock started at the call (`endTime = 0 + timeout`): `find t`
is what `findElement` returns at time `t`; checks happen at
`t = 0, 200, 400, …`; the first check that finds an element resolves to
it; otherwise once `t > timeout` the loop emits one `UI_WAIT_TIMEOUT`
diagnostic and resolves to `none` — resolution is the only way out, the
promise never rejects.  Returns (resolution time, resolved value,
emitted diagnostics). -/
def UIManager.waitLoop {α : Type} (selectorKey url : String) (find : Nat → Option α)
    (timeout t : Nat) : Nat × Option α × List Diag :=
  match find t with
  | some e => (t, some e, [])
  | none =>
    if h : timeout < t then (t, none, [{ selectorKey := selectorKey, timeout := timeout, url := url }])
    else UIManager.waitLoop selectorKey url find timeout (t + 200)
termination_by timeout + 1 - t
decreasing_by omega

/-- `UIManager.waitForElement(selectorKey, timeout)` (ui.js lines
75-103): the polling loop entered at time 0. -/
def UIManager.waitForElement {α : Type} (selectorKey url : String) (find : Nat → Option α)
    (timeout : Nat) : Nat × Option α × List Diag :=
  UIManager.waitLoop selectorKey url find timeout 0

/-- How one `autoScrollToBottom` run ended: the matched count reached
`cappedMax + 10`, the consecutive no-change threshold was reached, or
the 5-minute absolute timeout fired. -/
inductive ScrollExit
  | maxReached
  | stable
  | timedOut
  deriving DecidableEq, Repr

/-- Mutable locals of the `autoScrollToBottom` interval callback (ui.js
lines 154-158). -/
structure ScrollState where
  lastItemsCount : Nat
  lastHeight : Nat
  noChangeCount : Nat
  deriving DecidableEq, Repr

/-- The no-change threshold (ui.js line 158):
`(isFinite(cappedMax) && cappedMax > 200) ? 6 : 3`, with `none`
standing for the `Infinity` default. -/
def scrollThreshold (cappedMax : Option Nat) : Nat :=
  match cappedMax with
  | some m => if 200 < m then 6 else 3
  | none => 3

/-- One 800ms tick of the `autoScrollToBottom` interval (ui.js lines
174-219), given the page's `(item count, document height)` at this
tick.  In source order: growth check resets the no-change counter,
otherwise it is incremented; then the `cappedMax + 10` early exit; then
a height change resets the counter; finally the threshold comparison.
Returns the exit if the tick finalizes, else the updated locals. -/
def scrollStep (cappedMax : Option Nat) (threshold count height : Nat) (st : ScrollState) :
    ScrollExit ⊕ ScrollState :=
  let grown := st.lastItemsCount < count
  let last1 := if grown then count else st.lastItemsCount
  let nc1 := if grown then 0 else st.noChangeCount + 1
  let hitMax : Bool :=
    match cappedMax with
    | some m => decide (m + 10 ≤ count)
    | none => false
  if hitMax then Sum.inl ScrollExit.maxReached
  else
    let heightChanged := height ≠ st.lastHeight
    let nc2 := if heightChanged then 0 else nc1
    if threshold ≤ nc2 then Sum.inl ScrollExit.stable
    else Sum.inr { lastItemsCount := last1, lastHeight := height, noChangeCount := nc2 }

/-- The tick loop of `autoScrollToBottom`: `trace k` is the page's
`(matched item count, document height)` at tick `k` (800ms apart);
`ticksLeft` counts down to the 5-minute absolute timeout, which
finalizes the run when it reaches zero.  Returns the tick index at
which the run finalized and the exit cause. -/
def scrollRun (trace : Nat → Nat × Nat) (cappedMax : Option Nat) (threshold : Nat) :
    ScrollState → Nat → Nat → Nat × ScrollExit
  | _, k, 0 => (k, ScrollExit.timedOut)
  | st, k, ticksLeft + 1 =>
    match scrollStep cappedMax threshold (trace k).1 (trace k).2 st with
    | Sum.inl e => (k, e)
    | Sum.inr st2 => scrollRun trace cappedMax threshold st2 (k + 1) ticksLeft

/-- Number of 800ms poll ticks that fit in the 5-minute absolute
timeout of `autoScrollToBottom` (ui.js lines 173 and 225). -/
def scrollTimeoutTicks : Nat := 300000 / 800

/-- `UIManager.autoScrollToBottom(itemsKey, onProgress, maxItems)` (ui.js
lines 149-227) over a page trace: locals start at zero (line 154-156),
the threshold is chosen from `cappedMax` (line 158), and the interval
runs until one of the three exits, with the 5-minute timeout as the
outer bound. -/
def UIManager.autoScrollToBottom (trace : Nat → Nat × Nat) (cappedMax : Option Nat) :
    Nat × ScrollExit :=
  scrollRun trace cappedMax (scrollThreshold cappedMax)
    { lastItemsCount := 0, lastHeight := 0, noChangeCount := 0 } 0 scrollTimeoutTicks

/-! ## Generic deep merge on JSON-like values

`StateStore.deepMerge` (part_005 lines 278-290) and
`StateManager.deepMerge` (background.js lines 83-93) are textually
identical: `result = {...target}`, then for each own key of `source`, a
truthy non-array object value is merged recursively into
`result[key] || {}` while any other value (arrays, primitives, `null`)
replaces.  One embedding below serves both classes. -/

mutual

/-- JavaScript values as they occur in the state objects.  Objects and
arrays are mutual inductives (`JObj` is the insertion-ordered field
list, `JArr` the element list) so that the recursive merge below is
structurally recursive and computable. -/
inductive JVal
  | jnull
  | jbool (b : Bool)
  | jnum (n : Int)
  | jstr (s : String)
  | jarr (xs : JArr)
  | jobj (fields : JObj)

/-- Element list of a JavaScript array. -/
inductive JArr
  | nil
  | cons (v : JVal) (rest : JArr)

/-- Insertion-ordered field list of a JavaScript object. -/
inductive JObj
  | nil
  | cons (k : String) (v : JVal) (rest : JObj)

end

/-- Builds an object field list from a Lean list literal. -/
def JObj.ofList : List (String × JVal) → JObj
  | [] => JObj.nil
  | (k, v) :: rest => JObj.cons k v (JObj.ofList rest)

/-- JavaScript truthiness of a value. -/
def truthy : JVal → Bool
  | JVal.jnull => false
  | JVal.jbool b => b
  | JVal.jnum n => decide (n ≠ 0)
  | JVal.jstr s => decide (s ≠ "")
  | JVal.jarr _ => true
  | JVal.jobj _ => true

/-- Indexed fields contributed by spreading an array. -/
def arrIndexed (i : Nat) : JArr → JObj
  | JArr.nil => JObj.nil
  | JArr.cons v rest => JObj.cons (toString i) v (arrIndexed (i + 1) rest)

/-- Indexed fields contributed by spreading a string. -/
def strIndexed (i : Nat) : List Char → JObj
  | [] => JObj.nil
  | c :: rest => JObj.cons (toString i) (JVal.jstr (String.mk [c])) (strIndexed (i + 1) rest)

/-- Own enumerable properties produced by a spread `{...v}`: an object
contributes its fields, an array its indexed elements, a string its
indexed characters, and primitives contribute nothing. -/
def spreadFields : JVal → JObj
  | JVal.jobj fields => fields
  | JVal.jarr xs => arrIndexed 0 xs
  | JVal.jstr s => strIndexed 0 s.toList
  | _ => JObj.nil

/-- Property lookup on the field list of a JavaScript object (first
binding wins; keys are unique in practice). -/
def getKey (fields : JObj) (k : String) : Option JVal :=
  match fields with
  | JObj.nil => none
  | JObj.cons k1 v1 rest => if k1 = k then some v1 else getKey rest k

/-- Property assignment `result[key] = v`: replaces an existing binding
in place, otherwise appends (JavaScript keeps insertion order). -/
def setKey (fields : JObj) (k : String) (v : JVal) : JObj :=
  match fields with
  | JObj.nil => JObj.cons k v JObj.nil
  | JObj.cons k1 v1 rest =>
    if k1 = k then JObj.cons k v rest else JObj.cons k1 v1 (setKey rest k v)

/-- The `for (const key in source)` body of `deepMerge` folded over the
source fields, acting on the accumulated `result` fields: a value that
is a (truthy, non-array) object is merged recursively into
`result[key] || {}`; every other value replaces.  The recursive
`deepMerge` call is inlined as `jobj (mergeFields (spreadFields base)
inner)`. -/
def mergeFields (acc : JObj) : JObj → JObj
  | JObj.nil => acc
  | JObj.cons k v rest =>
    match v with
    | JVal.jobj inner =>
      let cur := (getKey acc k).getD JVal.jnull
      let base := if truthy cur then cur else JVal.jobj JObj.nil
      mergeFields (setKey acc k (JVal.jobj (mergeFields (spreadFields base) inner))) rest
    | _ => mergeFields (setKey acc k v) rest

/-- `deepMerge(target, source)` (part_005 lines 278-290, background.js
lines 83-93).  Every call in the repository passes an object as
`source` (the partial state updates); for a non-object source the
`for..in` over primitives iterates nothing and the spread of `target`
is returned — the array/string iteration of that unreachable case is
not modelled. -/
def deepMerge (target source : JVal) : JVal :=
  match source with
  | JVal.jobj fields => JVal.jobj (mergeFields (spreadFields target) fields)
  | _ => JVal.jobj (spreadFields target)

/-- Broadcasts of the background `StateManager` carrying full states. -/
inductive JBroadcast
  | stateChanged (s : JVal)

/-- `StateManager.updateState(updates)` (background.js lines 78-81):
deep-merges the partial update into the canonical state and immediately
rebroadcasts the full new state via `broadcastState`. -/
def StateManager.updateState (s patch : JVal) : JVal × List JBroadcast :=
  let s2 := deepMerge s patch
  (s2, [JBroadcast.stateChanged s2])

/-- The `defaultState` object of part_005 lines 20-40 as a JSON value
(also the initial `StateManager.state`, background.js lines 19-39). -/
def defaultStateJ : JVal :=
  JVal.jobj (JObj.ofList
    [("process", JVal.jobj (JObj.ofList
        [("isRunning", JVal.jbool false), ("isPaused", JVal.jbool false),
         ("tabId", JVal.jnull), ("startTime", JVal.jnull)])),
     ("stats", JVal.jobj (JObj.ofList
        [("totalReposts", JVal.jnum 0), ("processedVideos", JVal.jnum 0),
         ("removedVideos", JVal.jnum 0), ("skippedVideos", JVal.jnum 0)])),
     ("currentVideo", JVal.jobj (JObj.ofList
        [("index", JVal.jnum 0), ("title", JVal.jstr ""),
         ("author", JVal.jstr ""), ("url", JVal.jstr "")])),
     ("removedList", JVal.jarr JArr.nil)])

/-- Numeric field lookup along a two-segment path, used to observe
`stats` counters of a JSON state. -/
def numAt2 (s : JVal) (k1 k2 : String) : Option Int :=
  match s with
  | JVal.jobj fields =>
    match getKey fields k1 with
    | some (JVal.jobj inner) =>
      match getKey inner k2 with
      | some (JVal.jnum n) => some n
      | _ => none
    | _ => none
  | _ => none

/-! ## StateStore mutation methods as optimistic delta plus forwarded
message (part_005 lines 112-241, background.js lines 111-132 and
356-394) -/

/-- The messages the mutation methods send to the background:
`UPDATE_STATE` with the partial update, or `RESET_STATE`. -/
inductive BgMsg
  | updateStateMsg (patch : JVal)
  | resetStateMsg

/-- Nested single-path update object built by `StateStore.set(path,
value)` via `reduceRight` (part_005 lines 123-132). -/
def buildPathUpdate (path : List String) (v : JVal) : JVal :=
  match path with
  | [] => v
  | k :: rest => JVal.jobj (JObj.cons k (buildPathUpdate rest v) JObj.nil)

/-- The mutation methods of `StateStore` named by the specification,
with the arguments the workflow passes. -/
inductive MutMethod
  | update (patch : JVal)
  | setPath (path : List String) (v : JVal)
  | startProcess (now : Nat)
  | stopProcess
  | setPaused (b : Bool)
  | setTotal (n : Nat)
  | setCurrentVideo (index : Nat) (title author url : String)
  | incrementRemoved
  | reset

/-- The partial-update object each non-`reset` method passes to
`update` and hence both to the local `deepMerge` and to the forwarded
`UPDATE_STATE` message (part_005: `update` 112-118, `set` 123-132,
`startProcess` 137-158 without `tabId`, `stopProcess` 164-173,
`setPaused` 178-180, `setTotal` 217-219, `setCurrentVideo` 224-233,
`incrementRemoved` 185-204 with no `videoInfo`, reading the cached
`stats.removedVideos`). -/
def mutationDelta (s : JVal) : MutMethod → JVal
  | MutMethod.update patch => patch
  | MutMethod.setPath path v => buildPathUpdate path v
  | MutMethod.startProcess now =>
    JVal.jobj (JObj.ofList
      [("process", JVal.jobj (JObj.ofList
          [("isRunning", JVal.jbool true), ("isPaused", JVal.jbool false),
           ("startTime", JVal.jnum now)])),
       ("stats", JVal.jobj (JObj.ofList
          [("totalReposts", JVal.jnum 0), ("processedVideos", JVal.jnum 0),
           ("removedVideos", JVal.jnum 0), ("skippedVideos", JVal.jnum 0)])),
       ("removedList", JVal.jarr JArr.nil)])
  | MutMethod.stopProcess =>
    JVal.jobj (JObj.ofList
      [("process", JVal.jobj (JObj.ofList
          [("isRunning", JVal.jbool false), ("isPaused", JVal.jbool false),
           ("tabId", JVal.jnull), ("startTime", JVal.jnull)]))])
  | MutMethod.setPaused b => buildPathUpdate ["process", "isPaused"] (JVal.jbool b)
  | MutMethod.setTotal n => buildPathUpdate ["stats", "totalReposts"] (JVal.jnum n)
  | MutMethod.setCurrentVideo index title author url =>
    JVal.jobj (JObj.ofList
      [("currentVideo", JVal.jobj (JObj.ofList
          [("index", JVal.jnum index), ("title", JVal.jstr title),
           ("author", JVal.jstr author), ("url", JVal.jstr url)]))])
  | MutMethod.incrementRemoved =>
    JVal.jobj (JObj.ofList
      [("stats", JVal.jobj (JObj.ofList
          [("removedVideos", JVal.jnum ((numAt2 s "stats" "removedVideos").getD 0 + 1))]))])
  | MutMethod.reset => JVal.jnull

/-- Optimistic effect of a mutation method on the local cache:
`update` and everything built on it deep-merge the delta into
`this.state`; `reset` (part_005 lines 238-241) replaces the cache by a
copy of `defaultState`. -/
def StateStore.applyLocal (s : JVal) (m : MutMethod) : JVal :=
  match m with
  | MutMethod.reset => defaultStateJ
  | _ => deepMerge s (mutationDelta s m)

/-- Message each mutation method forwards to the background: `reset`
sends `RESET_STATE` (part_005 line 240), everything else sends
`UPDATE_STATE` with its delta. -/
def StateStore.msgOf (s : JVal) (m : MutMethod) : BgMsg :=
  match m with
  | MutMethod.reset => BgMsg.resetStateMsg
  | _ => BgMsg.updateStateMsg (mutationDelta s m)

/-- The update object of `StateManager.resetProcess(keepTabId = false)`
(background.js lines 111-132): clears the running flags, `startTime`,
`tabId` and `currentVideo` — deliberately not `stats` or
`removedList`. -/
def resetProcessPatch : JVal :=
  JVal.jobj (JObj.ofList
    [("process", JVal.jobj (JObj.ofList
        [("isRunning", JVal.jbool false), ("isPaused", JVal.jbool false),
         ("startTime", JVal.jnull), ("tabId", JVal.jnull)])),
     ("currentVideo", JVal.jobj (JObj.ofList
        [("index", JVal.jnum 0), ("title", JVal.jstr ""),
         ("author", JVal.jstr ""), ("url", JVal.jstr "")]))])

/-- How the background message handler mutates the canonical state
(background.js lines 365-373): `UPDATE_STATE` calls
`updateState(payload)`, `RESET_STATE` calls `resetProcess(false)`,
which itself goes through `updateState` with `resetProcessPatch`. -/
def StateManager.handleMsg (canonical : JVal) : BgMsg → JVal
  | BgMsg.updateStateMsg patch => (StateManager.updateState canonical patch).1
  | BgMsg.resetStateMsg => (StateManager.updateState canonical resetProcessPatch).1

/-! ## Concrete fixtures used by counterexamples and witnesses -/

/-- A mid-run canonical state: running, owning tab 7, with some stats
accumulated. -/
def runningCState : CState :=
  { process := { isRunning := true, isPaused := false, tabId := some 7, startTime := some 5 }
    stats := { totalReposts := 10, processedVideos := 4, removedVideos := 4, skippedVideos := 0 }
    currentVideo := { index := 4, title := "t", author := "@a", url := "u" }
    removedList := [] }

/-- A system whose canonical state is running while the cached replica
still reports idle (the push of the canonical update has not reached
the content script yet). -/
def staleCacheSys : Sys :=
  { canonical := runningCState, cache := defaultCState }

/-- A system whose canonical state is paused-and-running while the
cached replica still reports running-unpaused. -/
def stalePauseSys : Sys :=
  { canonical :=
      { runningCState with
        process := { runningCState.process with isPaused := true } }
    cache := runningCState }

/-- A system whose cached replica reports running (used to exercise the
start guard). -/
def cacheRunningSys : Sys :=
  { canonical := defaultCState, cache := runningCState }

/-- The C3 scenario's queue run: quota snapshot `remaining = 3`, ten
loaded items that all test as reposts, next button always available. -/
def c3Run : Option QueueResult :=
  processVideoQueue c3Env (maxRemovalOf (getQuotaRemaining (some 3))) 20 0 0 10 0 []

/-- Environment of the C10 scenario: 150 loaded items, all reposts,
always running, next button always available. -/
def c10Env : QueueEnv :=
  { runningAt := fun _ => true
    scrollResult := fun _ => 150
    repostAt := fun _ => true
    nextEnabledAt := fun _ => true }

/-- The C10 scenario's queue run: quota snapshot `remaining = 0`, 150
loaded repost items. -/
def c10Run : Option QueueResult :=
  processVideoQueue c10Env (maxRemovalOf (getQuotaRemaining (some 0))) 110 0 0 150 0 []

/-- A page trace that grows for two polls and then stays at 10 items
with constant height. -/
def c6trace (j : Nat) : Nat × Nat :=
  (5 * min j 2, 100)

/-- The default state with `stats.removedVideos = 5`, as a JSON value
(the shape `StateStore`/`StateManager` actually hold). -/
def statsFiveState : JVal :=
  JVal.jobj (JObj.ofList
    [("process", JVal.jobj (JObj.ofList
        [("isRunning", JVal.jbool false), ("isPaused", JVal.jbool false),
         ("tabId", JVal.jnull), ("startTime", JVal.jnull)])),
     ("stats", JVal.jobj (JObj.ofList
        [("totalReposts", JVal.jnum 10), ("processedVideos", JVal.jnum 5),
         ("removedVideos", JVal.jnum 5), ("skippedVideos", JVal.jnum 0)])),
     ("currentVideo", JVal.jobj (JObj.ofList
        [("index", JVal.jnum 0), ("title", JVal.jstr ""),
         ("author", JVal.jstr ""), ("url", JVal.jstr "")])),
     ("removedList", JVal.jarr JArr.nil)])

/-- The top-level field list of `defaultStateJ`. -/
def defaultTopJ : JObj := spreadFields defaultStateJ

/-- The `stats` field list of `defaultStateJ`. -/
def defaultStatsJ : JObj :=
  spreadFields ((getKey defaultTopJ "stats").getD JVal.jnull)

/-! ## Claim C1 — the start guard -/

/-- Claim C1, counterexample.  The claim reads: for every state in which
the canonical `process.isRunning` is true, `start()` is a no-op and the
guard is evaluated against the canonical (force-refreshed) state.  In
the code the guard reads `getState()` with `forceRefresh` defaulting to
`false`, i.e. the cached replica: with canonical running but the cache
stale-idle, `start()` is not a no-op — it mutates state (zeroing the
canonical stats through `startProcess`) and broadcasts a status
update. -/
theorem start_guard_counterexample :
    staleCacheSys.canonical.process.isRunning = true ∧
    (WorkflowManager.startStep 0 staleCacheSys).2 ≠ [] ∧
    (WorkflowManager.startStep 0 staleCacheSys).1.canonical ≠ staleCacheSys.canonical := by
  decide

/-- Claim C1, amended: `WorkflowManager.start()` is idempotent against
the locally cached replica — whenever the cache reports
`process.isRunning`, `start()` performs no state mutation and
broadcasts nothing; the guard reads `getState()` without a forced
refresh, so it is the cache, not the canonical state, that is
consulted. -/
theorem start_noop_when_cache_running (now : Nat) (sys : Sys)
    (h : sys.cache.process.isRunning = true) :
    WorkflowManager.startStep now sys = (sys, []) := by
  simp [WorkflowManager.startStep, StateStore.getState, h]

/-- Witness for `start_noop_when_cache_running` at a concrete running
cache. -/
theorem start_noop_when_cache_running_witness :
    cacheRunningSys.cache.process.isRunning = true ∧
    WorkflowManager.startStep 3 cacheRunningSys = (cacheRunningSys, []) :=
  ⟨by decide, start_noop_when_cache_running 3 cacheRunningSys (by decide)⟩

/-! ## Claim C2 — pause/stop decision points -/

/-- Claim C2, counterexample.  The claim reads: every pause/stop
decision point reads canonical state via a forced fresh round trip,
never the locally cached replica.  In the code both `checkPauseState`
and `pausableSleep` call `getState()` with no argument (`forceRefresh`
defaults to false): with canonical paused-and-running but a stale
unpaused cache, the pause-check read returns the cache value, no round
trip happens, and the pause wait exits immediately instead of
blocking. -/
theorem pause_check_counterexample :
    stalePauseSys.canonical.process.isPaused = true ∧
    stalePauseSys.canonical.process.isRunning = true ∧
    (WorkflowManager.pauseCheckRead stalePauseSys).1.process.isPaused = false ∧
    (WorkflowManager.pauseCheckRead stalePauseSys).2.2 = false ∧
    WorkflowManager.checkPauseState (fun _ => stalePauseSys) 1 0 = some 0 := by
  decide

/-- Claim C2, amended: every pause/stop decision point in the workflow
loop (the `checkPauseState` poll and each 100ms increment of
`pausableSleep`) reads state via `getState()` with `forceRefresh`
defaulted to false — it returns the locally cached replica with no
round trip to the background, and the decisions of both loops depend
only on the cache trace, never on the canonical state. -/
theorem pause_stop_checks_read_cached_replica :
    (∀ sys : Sys, WorkflowManager.pauseCheckRead sys = (sys.cache, sys, false) ∧
      WorkflowManager.sleepStopRead sys = (sys.cache, sys, false)) ∧
    (∀ sysAt sysAt2 : Nat → Sys, (∀ k, (sysAt k).cache = (sysAt2 k).cache) →
      (∀ fuel k, WorkflowManager.checkPauseState sysAt fuel k =
          WorkflowManager.checkPauseState sysAt2 fuel k) ∧
      (∀ fuel ms elapsed k, WorkflowManager.pausableSleep sysAt fuel ms elapsed k =
          WorkflowManager.pausableSleep sysAt2 fuel ms elapsed k)) := by
  refine ⟨fun sys => ⟨rfl, rfl⟩, fun s1 s2 hc => ⟨?_, ?_⟩⟩
  · intro fuel
    induction fuel with
    | zero => intro k; rfl
    | succ f ih =>
      intro k
      simp [WorkflowManager.checkPauseState, WorkflowManager.pauseCheckRead,
        StateStore.getState, hc k, ih]
  · intro fuel
    induction fuel with
    | zero => intro ms elapsed k; rfl
    | succ f ih =>
      intro ms elapsed k
      simp [WorkflowManager.pausableSleep, WorkflowManager.sleepStopRead,
        StateStore.getState, hc k, ih]

/-- Witness for `pause_stop_checks_read_cached_replica`: two systems
with equal caches but different canonical states make the same
pause-check decision. -/
theorem pause_stop_checks_read_cached_replica_witness :
    (∀ k : Nat, ((fun _ => cacheRunningSys) k : Sys).cache =
      ((fun _ => stalePauseSys) k : Sys).cache) ∧
    WorkflowManager.checkPauseState (fun _ => cacheRunningSys) 3 0 =
      WorkflowManager.checkPauseState (fun _ => stalePauseSys) 3 0 :=
  ⟨fun _ => rfl,
    (pause_stop_checks_read_cached_replica.2 (fun _ => cacheRunningSys)
      (fun _ => stalePauseSys) (fun _ => rfl)).1 3 0⟩

/-! ## Claim C4 — the paused-implies-running invariant -/

/-- Claim C4, counterexample.  The claim reads: for every sequence of
start/pause/resume/stop commands, no reachable canonical state has
`isRunning = false` and `isPaused = true` beyond one update cycle.  The
`PAUSE_REMOVAL` handler calls `setPaused(true)` unconditionally, so the
single command `pause` issued from the initial (idle) state yields
exactly that state — and it is a rest state that persists until some
later command changes it, not a transient of one update cycle. -/
theorem pause_while_idle_counterexample :
    (runCommands 0 defaultCState.process [Command.pause]).isRunning = false ∧
    (runCommands 0 defaultCState.process [Command.pause]).isPaused = true := by
  decide

/-- Claim C4, amended: for every command sequence in which `pause` is
only ever issued while the state it reaches reports
`isRunning = true`, the invariant holds: the final state has
`isPaused = true` only if `isRunning = true` (start and resume clear or
require the flag, stop clears both). -/
theorem paused_only_while_running (now : Nat) (p : ProcState) (cs : List Command)
    (hp : p.isPaused = true → p.isRunning = true)
    (hg : pauseOnlyWhileRunning now p cs = true) :
    (runCommands now p cs).isPaused = true → (runCommands now p cs).isRunning = true := by
  induction cs generalizing p with
  | nil => exact hp
  | cons c rest ih =>
    rw [pauseOnlyWhileRunning, Bool.and_eq_true] at hg
    rw [runCommands]
    apply ih
    · intro hps
      cases c with
      | start => simp [applyCommand]
      | pause =>
        have hr : p.isRunning = true := by simpa using hg.1
        simpa [applyCommand] using hr
      | resume => simp [applyCommand] at hps
      | stop => simp [applyCommand] at hps
    · exact hg.2

/-- Witness for `paused_only_while_running` on the sequence
start, pause, resume, stop. -/
theorem paused_only_while_running_witness :
    pauseOnlyWhileRunning 0 defaultCState.process
      [Command.start, Command.pause, Command.resume, Command.stop] = true ∧
    ((runCommands 0 defaultCState.process
        [Command.start, Command.pause, Command.resume, Command.stop]).isPaused = true →
      (runCommands 0 defaultCState.process
        [Command.start, Command.pause, Command.resume, Command.stop]).isRunning = true) :=
  ⟨by decide,
    paused_only_while_running 0 defaultCState.process
      [Command.start, Command.pause, Command.resume, Command.stop]
      (by decide) (by decide)⟩

/-! ## Claim C3 — the quota cap in the processing loop -/

/-- Claim C3: with the quota snapshot reporting `remaining = 3` and ten
loaded items that all test as reposts, the processing loop removes
exactly three items (three `VIDEO_REMOVED` broadcasts) and exits by
broadcasting the "Daily limit reached" status — not by exhausting the
list and not as an error. -/
theorem quota_cap_three_of_ten :
    c3Run.map QueueResult.exitPath = some QExit.limitReached ∧
    c3Run.map QueueResult.removedCount = some 3 ∧
    c3Run.map (fun r => countRemovedEvents r.events) = some 3 ∧
    c3Run.map (fun r => r.events.getLast?) = some (some QEvent.limitReached) := by
  decide

/-! ## Claim C10 — the `remaining || 100` coercion -/

set_option maxRecDepth 4000 in
/-- Claim C10: when the stored quota snapshot reports `remaining = 0`,
the cap `quotaInfo.remaining || 100` coerces the falsy zero to the
default, so `maxRemoval` is 100 and a run over 150 repost items removes
100 of them before hitting the limit path — an exhausted quota still
allows up to 100 removals. -/
theorem zero_quota_coerces_to_hundred :
    maxRemovalOf (getQuotaRemaining (some 0)) = 100 ∧
    c10Run.map QueueResult.exitPath = some QExit.limitReached ∧
    c10Run.map QueueResult.removedCount = some 100 := by
  decide

/-! ## Claim C5 — tab-closure recovery -/

/-- Claim C5: closing the target tab while the canonical state is
running yields a canonical state with `isRunning = false` and a null
tab handle, leaves `stats`, `removedList` and `startTime` unchanged,
persists `stats` and `removedList` immediately, and emits exactly one
`TAB_CLOSED` event carrying those stats. -/
theorem tab_closed_recovery (s : CState) (tid : Nat)
    (hrun : s.process.isRunning = true) (htab : s.process.tabId = some tid) :
    (bgOnTabRemoved tid s).1.process.isRunning = false ∧
    (bgOnTabRemoved tid s).1.process.tabId = none ∧
    (bgOnTabRemoved tid s).1.stats = s.stats ∧
    (bgOnTabRemoved tid s).1.removedList = s.removedList ∧
    (bgOnTabRemoved tid s).1.process.startTime = s.process.startTime ∧
    (bgOnTabRemoved tid s).2.1 = some { stats := s.stats, removedList := s.removedList } ∧
    tabClosedPayloads (bgOnTabRemoved tid s).2.2 = [(tid, s.stats)] := by
  simp [bgOnTabRemoved, StateManager.resetProcessKeepStats, htab, tabClosedPayloads]

/-- Witness for `tab_closed_recovery` at the claim's example stats
(`totalFound 10, removed 4`). -/
theorem tab_closed_recovery_witness :
    runningCState.process.isRunning = true ∧
    runningCState.process.tabId = some 7 ∧
    ((bgOnTabRemoved 7 runningCState).1.process.isRunning = false ∧
     (bgOnTabRemoved 7 runningCState).1.process.tabId = none ∧
     (bgOnTabRemoved 7 runningCState).1.stats = runningCState.stats ∧
     (bgOnTabRemoved 7 runningCState).1.removedList = runningCState.removedList ∧
     (bgOnTabRemoved 7 runningCState).1.process.startTime = runningCState.process.startTime ∧
     (bgOnTabRemoved 7 runningCState).2.1 =
       some { stats := runningCState.stats, removedList := runningCState.removedList } ∧
     tabClosedPayloads (bgOnTabRemoved 7 runningCState).2.2 = [(7, runningCState.stats)]) :=
  ⟨by decide, by decide, tab_closed_recovery runningCState 7 (by decide) (by decide)⟩

/-! ## Claim C6 — auto-scroll termination -/

/-- A finalizing tick of `autoScrollToBottom` exits through the
`maxItems + 10` check or the no-change threshold, never with the
timeout cause, which only the outer 5-minute timer produces. -/
theorem scrollStep_no_timeout (cappedMax : Option Nat) (threshold count height : Nat)
    (st : ScrollState) :
    scrollStep cappedMax threshold count height st ≠ Sum.inl ScrollExit.timedOut := by
  intro h
  simp only [scrollStep] at h
  repeat' split at h
  all_goals first
    | exact ScrollExit.noConfusion (Sum.inl.inj h)
    | exact Sum.noConfusion h

/-- A non-finalizing tick of `autoScrollToBottom` leaves the no-change
counter below the threshold, records the measured height as
`lastHeight`, and keeps `lastItemsCount` at least the measured count. -/
theorem scrollStep_continue (cappedMax : Option Nat) (threshold count height : Nat)
    (st st2 : ScrollState)
    (h : scrollStep cappedMax threshold count height st = Sum.inr st2) :
    st2.noChangeCount < threshold ∧ st2.lastHeight = height ∧ count ≤ st2.lastItemsCount := by
  simp only [scrollStep] at h
  repeat' split at h
  all_goals first
    | exact Sum.noConfusion h
    | (injection h with h2
       subst h2
       refine ⟨?_, rfl, ?_⟩ <;> dsimp only <;> omega)

/-- A tick whose measurements repeat the state's recorded values (count
not above `lastItemsCount`, height equal to `lastHeight`) and does not
finalize increments the no-change counter by exactly one and leaves the
other locals unchanged. -/
theorem scrollStep_stutter (cappedMax : Option Nat) (threshold count height : Nat)
    (st st2 : ScrollState) (hcle : count ≤ st.lastItemsCount) (hh : st.lastHeight = height)
    (h : scrollStep cappedMax threshold count height st = Sum.inr st2) :
    st2.noChangeCount = st.noChangeCount + 1 ∧ st2.lastHeight = height ∧
      st2.lastItemsCount = st.lastItemsCount := by
  simp only [scrollStep] at h
  repeat' split at h
  all_goals first
    | exact Sum.noConfusion h
    | (injection h with h2
       subst h2
       refine ⟨?_, ?_, ?_⟩ <;> dsimp only <;> omega)

/-- Once the page trace is constant and the run's locals record that
constant measurement, the run finalizes strictly within
`threshold - noChangeCount` further ticks and not through the
timeout. -/
theorem scrollRun_stabilized (trace : Nat → Nat × Nat) (cappedMax : Option Nat)
    (threshold N c h : Nat) (htr : ∀ j, N ≤ j → trace j = (c, h)) :
    ∀ d st k ticksLeft, N ≤ k → st.lastHeight = h → c ≤ st.lastItemsCount →
      threshold ≤ st.noChangeCount + d → st.noChangeCount < threshold → d ≤ ticksLeft →
      (scrollRun trace cappedMax threshold st k ticksLeft).1 + 1 ≤ k + d ∧
      (scrollRun trace cappedMax threshold st k ticksLeft).2 ≠ ScrollExit.timedOut := by
  intro d
  induction d with
  | zero => intro st k ticksLeft _ _ _ hle hlt _; omega
  | succ d ih =>
    intro st k ticksLeft hk hh hcle hle hlt hticks
    obtain ⟨t, rfl⟩ : ∃ t, ticksLeft = t + 1 := ⟨ticksLeft - 1, by omega⟩
    have htck := htr k hk
    have hcount : (trace k).1 = c := by rw [htck]
    have hheight : (trace k).2 = h := by rw [htck]
    simp only [scrollRun]
    cases hstep : scrollStep cappedMax threshold (trace k).1 (trace k).2 st with
    | inl e =>
      dsimp only
      refine ⟨by omega, ?_⟩
      intro he
      exact absurd (he ▸ hstep) (scrollStep_no_timeout _ _ _ _ _)
    | inr st2 =>
      dsimp only
      have hst := scrollStep_stutter cappedMax threshold (trace k).1 (trace k).2 st st2
        (by omega) (by omega) hstep
      have hlt2 := (scrollStep_continue cappedMax threshold (trace k).1 (trace k).2 st st2
        hstep).1
      have hrec := ih st2 (k + 1) t (by omega) (by omega) (by omega) (by omega) hlt2 (by omega)
      exact ⟨by omega, hrec.2⟩

/-- From the start of the run up to the stabilization tick `N`, the run
either finalizes early (never with the timeout cause) or reaches the
stabilized regime, so it always finalizes by tick `N + threshold`. -/
theorem scrollRun_reach (trace : Nat → Nat × Nat) (cappedMax : Option Nat)
    (threshold N c h : Nat) (htr : ∀ j, N ≤ j → trace j = (c, h))
    (hthr : 0 < threshold) :
    ∀ m st k ticksLeft, 0 < m → k + m = N + 1 → st.noChangeCount < threshold →
      m + threshold ≤ ticksLeft →
      (scrollRun trace cappedMax threshold st k ticksLeft).1 ≤ N + threshold ∧
      (scrollRun trace cappedMax threshold st k ticksLeft).2 ≠ ScrollExit.timedOut := by
  intro m
  induction m with
  | zero => intro st k ticksLeft h0 _ _ _; omega
  | succ m ih =>
    intro st k ticksLeft _ hkm hlt hticks
    obtain ⟨t, rfl⟩ : ∃ t, ticksLeft = t + 1 := ⟨ticksLeft - 1, by omega⟩
    simp only [scrollRun]
    cases hstep : scrollStep cappedMax threshold (trace k).1 (trace k).2 st with
    | inl e =>
      dsimp only
      refine ⟨by omega, ?_⟩
      intro he
      exact absurd (he ▸ hstep) (scrollStep_no_timeout _ _ _ _ _)
    | inr st2 =>
      dsimp only
      have hcont := scrollStep_continue cappedMax threshold (trace k).1 (trace k).2 st st2 hstep
      by_cases hm : 0 < m
      · exact ih st2 (k + 1) t hm (by omega) hcont.1 (by omega)
      · have hk : k = N := by omega
        have htck : trace k = (c, h) := htr k (by omega)
        have hcount : (trace k).1 = c := by rw [htck]
        have hheight : (trace k).2 = h := by rw [htck]
        have hrec := scrollRun_stabilized trace cappedMax threshold N c h htr
          (threshold - st2.noChangeCount) st2 (k + 1) t (by omega) (by omega) (by omega)
          (by omega) hcont.1 (by omega)
        exact ⟨by omega, hrec.2⟩

/-- Claim C6: for every page trace whose measurements stop changing from
poll `N` on, `autoScrollToBottom` finalizes no later than tick
`N + threshold` — i.e. within threshold × poll-interval of the last
growth — and not through the 5-minute absolute timeout (provided the
stabilization point is inside the timeout window); and for every
`maxItems` the no-change threshold is 6 whenever `maxItems > 200` and 3
otherwise (including the `Infinity` default), so the only exits are the
`maxItems + 10` cap and the no-change threshold. -/
theorem autoscroll_terminates_after_stabilization (trace : Nat → Nat × Nat)
    (cappedMax : Option Nat) (N : Nat)
    (htr : ∀ j, N ≤ j → trace j = trace N)
    (hN : N + 1 + scrollThreshold cappedMax ≤ scrollTimeoutTicks) :
    (UIManager.autoScrollToBottom trace cappedMax).1 ≤ N + scrollThreshold cappedMax ∧
    (UIManager.autoScrollToBottom trace cappedMax).2 ≠ ScrollExit.timedOut ∧
    (∀ m, scrollThreshold (some m) = if 200 < m then 6 else 3) ∧
    scrollThreshold none = 3 := by
  have hthr : 0 < scrollThreshold cappedMax := by
    cases cappedMax with
    | none => simp [scrollThreshold]
    | some m =>
      simp only [scrollThreshold]
      split <;> omega
  have htr2 : ∀ j, N ≤ j → trace j = ((trace N).1, (trace N).2) := by
    intro j hj
    rw [htr j hj]
  have hmain := scrollRun_reach trace cappedMax (scrollThreshold cappedMax) N
    (trace N).1 (trace N).2 htr2 hthr (N + 1)
    { lastItemsCount := 0, lastHeight := 0, noChangeCount := 0 } 0 scrollTimeoutTicks
    (by omega) (by omega) (by dsimp only; omega) (by omega)
  exact ⟨hmain.1, hmain.2, fun m => rfl, rfl⟩

/-- Witness for `autoscroll_terminates_after_stabilization` on a trace
that stops growing after poll 2 with `maxItems = 50`. -/
theorem autoscroll_terminates_after_stabilization_witness :
    (∀ j, 2 ≤ j → c6trace j = c6trace 2) ∧
    (1 + 2 + scrollThreshold (some 50) ≤ scrollTimeoutTicks) ∧
    ((UIManager.autoScrollToBottom c6trace (some 50)).1 ≤ 2 + scrollThreshold (some 50) ∧
     (UIManager.autoScrollToBottom c6trace (some 50)).2 ≠ ScrollExit.timedOut ∧
     (∀ m, scrollThreshold (some m) = if 200 < m then 6 else 3) ∧
     scrollThreshold none = 3) := by
  have hstable : ∀ j, 2 ≤ j → c6trace j = c6trace 2 := by
    intro j hj
    simp only [c6trace, Nat.min_eq_right hj, Nat.min_self]
  refine ⟨hstable, by decide, ?_⟩
  exact autoscroll_terminates_after_stabilization c6trace (some 50) 2 hstable (by decide)

/-! ## Claim C7 — waitForElement on a missing selector -/

/-- When the selector never matches, every entry into the polling loop
at time `t` resolves to `null` at the first check time strictly past
the timeout, emitting the diagnostic exactly once. -/
theorem waitLoop_never_found {α : Type} (selectorKey url : String) (find : Nat → Option α)
    (timeout : Nat) (hf : ∀ u, find u = none) :
    ∀ t, ∃ T, UIManager.waitLoop selectorKey url find timeout t =
        (T, none, [{ selectorKey := selectorKey, timeout := timeout, url := url }]) ∧
      timeout < T ∧ t ≤ T := by
  intro t
  by_cases ht : timeout < t
  · refine ⟨t, ?_, ht, le_refl t⟩
    rw [UIManager.waitLoop, hf t]
    simp [ht]
  · have hrec := waitLoop_never_found selectorKey url find timeout hf (t + 200)
    obtain ⟨T, hT, hTtimeout, hTt⟩ := hrec
    refine ⟨T, ?_, hTtimeout, by omega⟩
    rw [UIManager.waitLoop, hf t]
    simp only [ht, dif_neg]
    exact hT
termination_by t => timeout + 1 - t
decreasing_by omega

/-- Claim C7: for every selector key with no match in the DOM and every
`timeoutMs`, `waitForElement` resolves to `null` at a time at or after
`timeoutMs` (it is a total function — the promise never rejects or
throws) and emits exactly one `UI_WAIT_TIMEOUT` diagnostic carrying the
selector key, the timeout and the page URL. -/
theorem waitForElement_no_match {α : Type} (selectorKey url : String) (find : Nat → Option α)
    (timeout : Nat) (hf : ∀ u, find u = none) :
    (UIManager.waitForElement selectorKey url find timeout).2.1 = none ∧
    timeout ≤ (UIManager.waitForElement selectorKey url find timeout).1 ∧
    (UIManager.waitForElement selectorKey url find timeout).2.2 =
      [{ selectorKey := selectorKey, timeout := timeout, url := url }] := by
  obtain ⟨T, hT, hTtimeout, _⟩ := waitLoop_never_found selectorKey url find timeout hf 0
  rw [UIManager.waitForElement, hT]
  exact ⟨rfl, by omega, rfl⟩

/-- Witness for `waitForElement_no_match`: the repost-button selector
with an empty page and a 500ms timeout. -/
theorem waitForElement_no_match_witness :
    (∀ u : Nat, (fun _ : Nat => (none : Option Nat)) u = none) ∧
    ((UIManager.waitForElement "video.repostButton" "https://www.tiktok.com/"
        (fun _ : Nat => (none : Option Nat)) 500).2.1 = none ∧
     500 ≤ (UIManager.waitForElement "video.repostButton" "https://www.tiktok.com/"
        (fun _ : Nat => (none : Option Nat)) 500).1 ∧
     (UIManager.waitForElement "video.repostButton" "https://www.tiktok.com/"
        (fun _ : Nat => (none : Option Nat)) 500).2.2 =
       [{ selectorKey := "video.repostButton", timeout := 500,
          url := "https://www.tiktok.com/" }]) :=
  ⟨fun _ => rfl,
    waitForElement_no_match "video.repostButton" "https://www.tiktok.com/"
      (fun _ => none) 500 (fun _ => rfl)⟩

/-! ## Claim C8 — optimistic deltas versus the background handlers -/

/-- Claim C8, counterexample.  The claim reads: for every mutation
method — including `reset` — the delta applied to the local cache
equals the delta applied by the background, so equal states stay
equal.  For `reset` this fails: the local cache is replaced by
`defaultState` (zeroing `stats`), while the forwarded `RESET_STATE` is
handled by `resetProcess(false)`, whose patch does not touch `stats` or
`removedList`.  Starting from equal states with
`stats.removedVideos = 5`, one `reset` leaves the replicas unequal. -/
theorem reset_desyncs_replicas :
    numAt2 (StateStore.applyLocal statsFiveState MutMethod.reset)
      "stats" "removedVideos" = some 0 ∧
    numAt2 (StateManager.handleMsg statsFiveState
      (StateStore.msgOf statsFiveState MutMethod.reset)) "stats" "removedVideos" = some 5 ∧
    StateStore.applyLocal statsFiveState MutMethod.reset ≠
      StateManager.handleMsg statsFiveState (StateStore.msgOf statsFiveState MutMethod.reset) := by
  have h5 : numAt2 (StateManager.handleMsg statsFiveState
      (StateStore.msgOf statsFiveState MutMethod.reset)) "stats" "removedVideos" = some 5 := rfl
  have h0 : numAt2 (StateStore.applyLocal statsFiveState MutMethod.reset)
      "stats" "removedVideos" = some 0 := rfl
  refine ⟨h0, h5, fun heq => ?_⟩
  rw [heq, h5] at h0
  exact absurd h0 (by decide)

/-- Claim C8, amended: for every `StateStore` mutation method except
`reset` — `update`, `set` by dotted path, `startProcess`,
`stopProcess`, `setPaused`, `setTotal`, `setCurrentVideo`,
`incrementRemoved` — the optimistic local application and the
background's handling of the forwarded message apply the same delta
through the same `deepMerge`, so from equal local and canonical states
one mutation leaves the two replicas equal; `reset` alone breaks this
(see the counterexample). -/
theorem nonreset_mutations_keep_replicas_equal (m : MutMethod) (s : JVal)
    (hm : m ≠ MutMethod.reset) :
    StateStore.applyLocal s m = StateManager.handleMsg s (StateStore.msgOf s m) := by
  cases m with
  | reset => exact absurd rfl hm
  | update patch => rfl
  | setPath path v => rfl
  | startProcess now => rfl
  | stopProcess => rfl
  | setPaused b => rfl
  | setTotal n => rfl
  | setCurrentVideo index title author url => rfl
  | incrementRemoved => rfl

/-- Witness for `nonreset_mutations_keep_replicas_equal` at
`setTotal 7` on the default state. -/
theorem nonreset_mutations_keep_replicas_equal_witness :
    (MutMethod.setTotal 7 ≠ MutMethod.reset) ∧
    StateStore.applyLocal defaultStateJ (MutMethod.setTotal 7) =
      StateManager.handleMsg defaultStateJ
        (StateStore.msgOf defaultStateJ (MutMethod.setTotal 7)) :=
  ⟨fun heq => MutMethod.noConfusion heq,
    nonreset_mutations_keep_replicas_equal (MutMethod.setTotal 7) defaultStateJ
      (fun heq => MutMethod.noConfusion heq)⟩

/-! ## Claim C9 — the recursive merge of updateState -/

/-- Looking up the key just assigned returns the assigned value. -/
theorem getKey_setKey_same (fs : JObj) (k : String) (v : JVal) :
    getKey (setKey fs k v) k = some v := by
  match fs with
  | JObj.nil => simp [setKey, getKey]
  | JObj.cons k1 v1 rest =>
    by_cases h : k1 = k
    · simp [setKey, getKey, h]
    · simp only [setKey, h, if_false, getKey]
      exact getKey_setKey_same rest k v

/-- Assigning one key leaves every other key's binding unchanged. -/
theorem getKey_setKey_other (fs : JObj) (k : String) (v : JVal) (g : String) (hg : g ≠ k) :
    getKey (setKey fs k v) g = getKey fs g := by
  match fs with
  | JObj.nil =>
    simp only [setKey, getKey]
    rw [if_neg (fun h => hg h.symm)]
  | JObj.cons k1 v1 rest =>
    by_cases h : k1 = k
    · subst h
      simp only [setKey, if_pos rfl, getKey]
      rw [if_neg (fun h2 => hg h2.symm), if_neg (fun h2 => hg h2.symm)]
    · simp only [setKey, h, if_false, getKey]
      by_cases h2 : k1 = g
      · rw [if_pos h2, if_pos h2]
      · rw [if_neg h2, if_neg h2]
        exact getKey_setKey_other rest k v g hg

/-- Claim C9: `StateManager.updateState(partial)` performs a recursive
merge — the nested `stats` object merges key-wise (the touched field
takes the new value, every sibling field keeps its old binding, every
other top-level slice keeps its binding), while arrays and primitives
fully replace — and the full new state is rebroadcast immediately as
one `STATE_CHANGED` message. -/
theorem updateState_merges_stats_field (top sf : JObj) (f : String) (v : Int)
    (hst : getKey top "stats" = some (JVal.jobj sf)) :
    (StateManager.updateState (JVal.jobj top)
        (JVal.jobj (JObj.cons "stats" (JVal.jobj (JObj.cons f (JVal.jnum v) JObj.nil))
          JObj.nil))).1 =
      JVal.jobj (setKey top "stats" (JVal.jobj (setKey sf f (JVal.jnum v)))) ∧
    getKey (setKey sf f (JVal.jnum v)) f = some (JVal.jnum v) ∧
    (∀ g, g ≠ f → getKey (setKey sf f (JVal.jnum v)) g = getKey sf g) ∧
    (∀ g, g ≠ "stats" →
      getKey (setKey top "stats" (JVal.jobj (setKey sf f (JVal.jnum v)))) g = getKey top g) ∧
    (∀ (t : JVal) (k : String) (xs : JArr),
      getKey (spreadFields (deepMerge t (JVal.jobj (JObj.cons k (JVal.jarr xs) JObj.nil)))) k =
        some (JVal.jarr xs)) ∧
    (∀ (t : JVal) (k : String) (n : Int),
      getKey (spreadFields (deepMerge t (JVal.jobj (JObj.cons k (JVal.jnum n) JObj.nil)))) k =
        some (JVal.jnum n)) ∧
    (StateManager.updateState (JVal.jobj top)
        (JVal.jobj (JObj.cons "stats" (JVal.jobj (JObj.cons f (JVal.jnum v) JObj.nil))
          JObj.nil))).2 =
      [JBroadcast.stateChanged
        (JVal.jobj (setKey top "stats" (JVal.jobj (setKey sf f (JVal.jnum v)))))] := by
  have hres : (StateManager.updateState (JVal.jobj top)
      (JVal.jobj (JObj.cons "stats" (JVal.jobj (JObj.cons f (JVal.jnum v) JObj.nil))
        JObj.nil))).1 =
      JVal.jobj (setKey top "stats" (JVal.jobj (setKey sf f (JVal.jnum v)))) := by
    simp [StateManager.updateState, deepMerge, spreadFields, mergeFields, hst, truthy]
  refine ⟨hres, getKey_setKey_same sf f (JVal.jnum v),
    fun g hg => getKey_setKey_other sf f (JVal.jnum v) g hg,
    fun g hg => getKey_setKey_other top "stats" (JVal.jobj (setKey sf f (JVal.jnum v))) g hg,
    ?_, ?_, ?_⟩
  · intro t k xs
    simp only [deepMerge, mergeFields, spreadFields]
    exact getKey_setKey_same (spreadFields t) k (JVal.jarr xs)
  · intro t k n
    simp only [deepMerge, mergeFields, spreadFields]
    exact getKey_setKey_same (spreadFields t) k (JVal.jnum n)
  · have hbr : (StateManager.updateState (JVal.jobj top)
        (JVal.jobj (JObj.cons "stats" (JVal.jobj (JObj.cons f (JVal.jnum v) JObj.nil))
          JObj.nil))).2 =
        [JBroadcast.stateChanged ((StateManager.updateState (JVal.jobj top)
          (JVal.jobj (JObj.cons "stats" (JVal.jobj (JObj.cons f (JVal.jnum v) JObj.nil))
            JObj.nil))).1)] := rfl
    rw [hbr, hres]

/-- Witness for `updateState_merges_stats_field` at the default state
with `stats.removedVideos` set to 5. -/
theorem updateState_merges_stats_field_witness :
    getKey defaultTopJ "stats" = some (JVal.jobj defaultStatsJ) ∧
    ((StateManager.updateState (JVal.jobj defaultTopJ)
        (JVal.jobj (JObj.cons "stats"
          (JVal.jobj (JObj.cons "removedVideos" (JVal.jnum 5) JObj.nil)) JObj.nil))).1 =
      JVal.jobj (setKey defaultTopJ "stats"
        (JVal.jobj (setKey defaultStatsJ "removedVideos" (JVal.jnum 5)))) ∧
    getKey (setKey defaultStatsJ "removedVideos" (JVal.jnum 5)) "removedVideos" =
      some (JVal.jnum 5) ∧
    (∀ g, g ≠ "removedVideos" →
      getKey (setKey defaultStatsJ "removedVideos" (JVal.jnum 5)) g = getKey defaultStatsJ g) ∧
    (∀ g, g ≠ "stats" →
      getKey (setKey defaultTopJ "stats"
        (JVal.jobj (setKey defaultStatsJ "removedVideos" (JVal.jnum 5)))) g =
        getKey defaultTopJ g) ∧
    (∀ (t : JVal) (k : String) (xs : JArr),
      getKey (spreadFields (deepMerge t (JVal.jobj (JObj.cons k (JVal.jarr xs) JObj.nil)))) k =
        some (JVal.jarr xs)) ∧
    (∀ (t : JVal) (k : String) (n : Int),
      getKey (spreadFields (deepMerge t (JVal.jobj (JObj.cons k (JVal.jnum n) JObj.nil)))) k =
        some (JVal.jnum n)) ∧
    (StateManager.updateState (JVal.jobj defaultTopJ)
        (JVal.jobj (JObj.cons "stats"
          (JVal.jobj (JObj.cons "removedVideos" (JVal.jnum 5) JObj.nil)) JObj.nil))).2 =
      [JBroadcast.stateChanged
        (JVal.jobj (setKey defaultTopJ "stats"
          (JVal.jobj (setKey defaultStatsJ "removedVideos" (JVal.jnum 5)))))]) :=
  ⟨rfl, updateState_merges_stats_field defaultTopJ defaultStatsJ "removedVideos" 5 rfl⟩
